import Mathlib

/-!
Verification of the gesture signal-processing pipeline of the
Motion_Track_Prototype repository.

The TypeScript sources (gesture/useGestureControl.ts, ml/infer.ts,
ml/features.ts, gesture/zoomGesture.ts, ml/ringBuffer.ts) are embedded
shallowly:

* JavaScript numbers are modelled as rationals (`ℚ`).  All numeric
  values flowing through the pipeline are finite (the sources clamp or
  guard every division), so `ℚ` is an adequate model; `Number.isFinite`
  tests from the source are vacuously true in this model and are noted
  where they occur.
* `Math.hypot` computes a square root, which is not rational.  The
  development is therefore parameterised by an arbitrary square-root
  interpretation `sqrtQ : ℚ → ℚ`; every theorem proved below holds for
  every such interpretation, in particular for the real square root.
* JavaScript property access on `undefined` (a missing landmark) throws;
  partial functions are embedded with `Option`, `none` meaning the
  exceptional path.
* Stateful code (refs mutated by the per-frame callback) is embedded as
  explicit state records with pure step functions.
-/

namespace MotionTrack

/-- A MediaPipe hand landmark: normalized image coordinates plus relative
depth (zoomGesture.ts, type Landmark). -/
structure Landmark where
  x : ℚ
  y : ℚ
  z : ℚ
deriving DecidableEq, Repr

/-- `Math.max` on two numbers. -/
def maxQ (a b : ℚ) : ℚ := if a ≤ b then b else a

/-- `Math.min` on two numbers. -/
def minQ (a b : ℚ) : ℚ := if a ≤ b then a else b

/-- `clamp(value, min, max) = Math.min(max, Math.max(min, value))`, as
defined identically in all four source files. -/
def clampQ (value lo hi : ℚ) : ℚ :=
  minQ hi (maxQ lo value)

/-- `Math.hypot dx dy` under the square-root interpretation `sqrtQ`. -/
def hypotQ (sqrtQ : ℚ → ℚ) (dx dy : ℚ) : ℚ :=
  sqrtQ (dx * dx + dy * dy)

/-- `distance` / `dist` / `dist2D`: `Math.hypot(a.x - b.x, a.y - b.y)`,
shared by useGestureControl.ts, zoomGesture.ts and features.ts. -/
def dist2D (sqrtQ : ℚ → ℚ) (a b : Landmark) : ℚ :=
  hypotQ sqrtQ (a.x - b.x) (a.y - b.y)

/-- `midpoint` from useGestureControl.ts (3D). -/
def midpointLm (a b : Landmark) : Landmark :=
  { x := (a.x + b.x) / 2, y := (a.y + b.y) / 2, z := (a.z + b.z) / 2 }

/-! ## Pinch/click state machine (useGestureControl.ts) -/

/-- `PINCH_COOLDOWN_MS` -/
def PINCH_COOLDOWN_MS : ℚ := 260

/-- `type ClickState = IDLE | PINCHING | CLICKED | RELEASED` -/
inductive ClickState where
  | IDLE
  | PINCHING
  | CLICKED
  | RELEASED
deriving DecidableEq, Repr

open ClickState

/-- `clickStateMachine` (useGestureControl.ts, lines 283-310): one
evaluation of the pinch/click state machine.  Returns
`(nextState, fireClick)`. -/
def clickStateMachine (state : ClickState) (shouldStartPinch shouldReleasePinch : Bool)
    (nowMs lastClickMs : ℚ) : ClickState × Bool :=
  match state with
  | IDLE => (if shouldStartPinch then PINCHING else IDLE, false)
  | PINCHING =>
      if shouldStartPinch ∧ nowMs - lastClickMs > PINCH_COOLDOWN_MS then
        (CLICKED, true)
      else if shouldReleasePinch then (RELEASED, false)
      else (PINCHING, false)
  | CLICKED => (if shouldReleasePinch then RELEASED else CLICKED, false)
  | RELEASED => (if ¬shouldStartPinch then IDLE else RELEASED, false)

/-- Per-frame input to the click pipeline.  `reset = true` models a frame
on which `hands.onResults` forces `clickStateRef.current` to IDLE without
evaluating the state machine (no hand, two-hand zoom, open palm, or a
non-pinch stable gesture); on such frames `lastPinchClickTimeRef` is not
touched and no click is dispatched. -/
structure ClickInput where
  reset : Bool
  start : Bool
  release : Bool
  now : ℚ

/-- The mutable refs feeding the click dispatch site:
`clickStateRef` and `lastPinchClickTimeRef`. -/
structure ClickSession where
  click : ClickState
  lastClick : ℚ
deriving DecidableEq, Repr

/-- One frame of the click pipeline (useGestureControl.ts, lines
874-889 for the machine path): run `clickStateMachine` and, when
`fireClick` is returned, dispatch the click and record its time in
`lastPinchClickTimeRef`. -/
def clickFrame (s : ClickSession) (i : ClickInput) : ClickSession × Bool :=
  if i.reset then ({ click := IDLE, lastClick := s.lastClick }, false)
  else
    let r := clickStateMachine s.click i.start i.release i.now s.lastClick
    ({ click := r.1, lastClick := if r.2 then i.now else s.lastClick }, r.2)

/-- The click session after `n` frames of the input stream `inputs`. -/
def sessionAt (s0 : ClickSession) (inputs : ℕ → ClickInput) : ℕ → ClickSession
  | 0 => s0
  | n + 1 => (clickFrame (sessionAt s0 inputs n) (inputs n)).1

/-- Whether a click event is dispatched on frame `n`. -/
def firedAt (s0 : ClickSession) (inputs : ℕ → ClickInput) (n : ℕ) : Bool :=
  (clickFrame (sessionAt s0 inputs n) (inputs n)).2

/-! ## Single-hand zoom engine (zoomGesture.ts) -/

/-- `type ZoomGestureState = IDLE | ARMED | ZOOMING | COOLDOWN` -/
inductive ZoomGestureState where
  | IDLE
  | ARMED
  | ZOOMING
  | COOLDOWN
deriving DecidableEq, Repr

/-- `type ZoomEngine` (zoomGesture.ts). -/
structure ZoomEngine where
  state : ZoomGestureState
  zoom : ℚ
  emaPinch : Option ℚ
  baselinePinch : Option ℚ
  pinchHistory : List ℚ
  consistentFrames : ℕ
  cooldownUntil : ℚ
deriving DecidableEq, Repr

/-- The `ZOOM_CONSTANTS` table of zoomGesture.ts. -/
def EMA_ALPHA : ℚ := 0.22
def ROLLING_WINDOW : ℕ := 6
def ARMED_FRAMES : ℕ := 4
def ENTER_DELTA : ℚ := 0.018
def EXIT_DELTA : ℚ := 0.009
def DEAD_BAND : ℚ := 0.004
def ZOOM_SENSITIVITY : ℚ := 1.8
def MAX_FRAME_ZOOM_STEP : ℚ := 0.04
def HAND_VELOCITY_LIMIT : ℚ := 0.18
def COOLDOWN_MS : ℚ := 180
def MIN_ZOOM : ℚ := 0.6
def MAX_ZOOM : ℚ := 2.2

/-- `computeHandScale` — identical in features.ts and zoomGesture.ts:
blend of wrist to middle MCP and index MCP to pinky MCP distances,
clamped below by 0.02; safe default 0.12 when a required landmark is
missing. -/
def computeHandScale (sqrtQ : ℚ → ℚ) (landmarks : List Landmark) : ℚ :=
  match landmarks.get? 0, landmarks.get? 9, landmarks.get? 5, landmarks.get? 17 with
  | some wrist, some middleMcp, some indexMcp, some pinkyMcp =>
      maxQ 0.02 ((dist2D sqrtQ wrist middleMcp + dist2D sqrtQ indexMcp pinkyMcp) / 2)
  | _, _, _, _ => 0.12

/-- `computeNormalizedPinch` (zoomGesture.ts, lines 480-490):
`dist(thumbTip, indexTip) / handScale`, with 0 as the missing-landmark
default. -/
def computeNormalizedPinch (sqrtQ : ℚ → ℚ) (landmarks : List Landmark) : ℚ :=
  match landmarks.get? 4 with
  | none => 0
  | some thumbTip =>
      match landmarks.get? 8 with
      | none => 0
      | some indexTip =>
          dist2D sqrtQ thumbTip indexTip / computeHandScale sqrtQ landmarks

/-- `rollingAverage` (zoomGesture.ts). -/
def rollingAverage (values : List ℚ) : ℚ :=
  if values.length = 0 then 0 else values.sum / values.length

/-- `zoomStateMachine` (zoomGesture.ts, lines 497-547), as a pure update
of the mutated `engine` fields. -/
def zoomStateMachine (engine : ZoomEngine) (nowMs smoothedPinch stableDelta : ℚ)
    (isClickActive : Bool) (handVelocity : ℚ) (disableZoom : Bool) : ZoomEngine :=
  if disableZoom ∨ isClickActive ∨ handVelocity > HAND_VELOCITY_LIMIT then
    { engine with
        state := ZoomGestureState.IDLE
        consistentFrames := 0
        baselinePinch := some smoothedPinch }
  else
    match engine.state with
    | ZoomGestureState.COOLDOWN =>
        if nowMs ≥ engine.cooldownUntil then { engine with state := ZoomGestureState.IDLE }
        else engine
    | ZoomGestureState.IDLE =>
        let cf := engine.consistentFrames + 1
        if cf ≥ ARMED_FRAMES then
          { engine with
              state := ZoomGestureState.ARMED
              baselinePinch := some smoothedPinch
              consistentFrames := 0 }
        else { engine with consistentFrames := cf }
    | ZoomGestureState.ARMED =>
        if |stableDelta| ≥ ENTER_DELTA then { engine with state := ZoomGestureState.ZOOMING }
        else engine
    | ZoomGestureState.ZOOMING =>
        if |stableDelta| ≤ EXIT_DELTA then
          { engine with
              state := ZoomGestureState.COOLDOWN
              cooldownUntil := nowMs + COOLDOWN_MS }
        else engine

/-- The record returned by `updateZoomGesture`, paired with the updated
engine (the source mutates `engine` in place and returns the summary). -/
structure ZoomUpdateResult where
  engine : ZoomEngine
  zoom : ℚ
  state : ZoomGestureState
  stableDelta : ℚ
  normalizedPinch : ℚ
deriving DecidableEq, Repr

/-- `updateZoomGesture` (zoomGesture.ts, lines 555-629): per-frame update
of the single-hand pinch-zoom engine. -/
def updateZoomGesture (sqrtQ : ℚ → ℚ) (engine : ZoomEngine) (landmarks : List Landmark)
    (nowMs : ℚ) (isClickActive : Bool) (handVelocity : ℚ) (disableZoom : Bool) :
    ZoomUpdateResult :=
  let normalizedPinch := computeNormalizedPinch sqrtQ landmarks
  let ema :=
    match engine.emaPinch with
    | none => normalizedPinch
    | some prev => EMA_ALPHA * normalizedPinch + (1 - EMA_ALPHA) * prev
  let pushed := engine.pinchHistory ++ [ema]
  let history := if pushed.length > ROLLING_WINDOW then pushed.tail else pushed
  let stablePinch := rollingAverage history
  let baseline :=
    match engine.baselinePinch with
    | none => stablePinch
    | some b => b
  let stableDelta := stablePinch - baseline
  let e1 := { engine with emaPinch := some ema, pinchHistory := history,
                          baselinePinch := some baseline }
  let e2 := zoomStateMachine e1 nowMs stablePinch stableDelta isClickActive handVelocity
              disableZoom
  if e2.state = ZoomGestureState.ZOOMING then
    if |stableDelta| < DEAD_BAND then
      { engine := e2, zoom := e2.zoom, state := e2.state, stableDelta := stableDelta,
        normalizedPinch := stablePinch }
    else
      let rawStep := stableDelta * ZOOM_SENSITIVITY
      let frameStep := clampQ rawStep (-MAX_FRAME_ZOOM_STEP) MAX_FRAME_ZOOM_STEP
      let newZoom := clampQ (e2.zoom * (1 + frameStep)) MIN_ZOOM MAX_ZOOM
      let e3 := { e2 with zoom := newZoom }
      { engine := e3, zoom := e3.zoom, state := e3.state, stableDelta := stableDelta,
        normalizedPinch := stablePinch }
  else
    { engine := e2, zoom := e2.zoom, state := e2.state, stableDelta := stableDelta,
      normalizedPinch := stablePinch }

/-- A sequence of per-frame inputs to `updateZoomGesture`:
`(landmarks, nowMs, isClickActive, handVelocity, disableZoom)`. -/
def runZoomUpdates (sqrtQ : ℚ → ℚ) (engine : ZoomEngine) :
    List (List Landmark × ℚ × Bool × ℚ × Bool) → ZoomEngine
  | [] => engine
  | f :: rest =>
      runZoomUpdates sqrtQ
        (updateZoomGesture sqrtQ engine f.1 f.2.1 f.2.2.1 f.2.2.2.1 f.2.2.2.2).engine rest

/-- `createZoomEngine` (zoomGesture.ts). -/
def createZoomEngine (initialZoom : ℚ := 1) : ZoomEngine :=
  { state := ZoomGestureState.IDLE, zoom := initialZoom, emaPinch := none,
    baselinePinch := none, pinchHistory := [], consistentFrames := 0, cooldownUntil := 0 }

/-! ## Two-hand zoom path (useGestureControl.ts, lines 628-731) -/

def TWO_HAND_ZOOM_ENTER_DELTA : ℚ := 0.026
def TWO_HAND_ZOOM_EXIT_DELTA : ℚ := 0.01
def TWO_HAND_ZOOM_ALPHA : ℚ := 0.3
def TWO_HAND_ZOOM_SENSITIVITY : ℚ := 1.65
def TWO_HAND_ZOOM_MAX_STEP : ℚ := 0.035
def TWO_HAND_ENTER_MAX_SPEED : ℚ := 0.05
def TWO_HAND_FAST_SPEED : ℚ := 0.11
def TWO_HAND_IDLE_FRAMES_TO_STOP : ℕ := 4

/-- The refs of the two-hand zoom path, plus the zoom factor of the
shared zoom engine that the path multiplies into. -/
structure TwoHandState where
  prevDistance : Option ℚ
  smoothedDelta : ℚ
  active : Bool
  idleFrames : ℕ
  prevCenterA : Option Landmark
  prevCenterB : Option Landmark
  zoom : ℚ
deriving DecidableEq, Repr

/-- One frame of the two-hand zoom block (useGestureControl.ts, lines
628-698), for a frame on which both hands expose wrist and middle MCP.
UI setters (`setZoomState`, `setStatus`, ...) have no bearing on the
session state and are omitted. -/
def twoHandZoomFrame (sqrtQ : ℚ → ℚ) (s : TwoHandState)
    (wrist middleMcp secondWrist secondMiddleMcp : Landmark) : TwoHandState :=
  let centerA := midpointLm wrist middleMcp
  let centerB := midpointLm secondWrist secondMiddleMcp
  let scaleA := maxQ 0.02 (dist2D sqrtQ wrist middleMcp)
  let scaleB := maxQ 0.02 (dist2D sqrtQ secondWrist secondMiddleMcp)
  let distanceNorm := dist2D sqrtQ centerA centerB / maxQ 0.03 ((scaleA + scaleB) / 2)
  let rawDelta :=
    match s.prevDistance with
    | none => 0
    | some prev => distanceNorm - prev
  let smoothedDelta := TWO_HAND_ZOOM_ALPHA * rawDelta + (1 - TWO_HAND_ZOOM_ALPHA) * s.smoothedDelta
  let absDelta := |smoothedDelta|
  let speedA :=
    match s.prevCenterA with
    | none => 0
    | some prev => dist2D sqrtQ centerA prev
  let speedB :=
    match s.prevCenterB with
    | none => 0
    | some prev => dist2D sqrtQ centerB prev
  let pairSpeed := maxQ speedA speedB
  let canEnter := pairSpeed ≤ TWO_HAND_ENTER_MAX_SPEED
  let entering := ¬s.active ∧ canEnter ∧ absDelta ≥ TWO_HAND_ZOOM_ENTER_DELTA
  let active1 := if entering then true else s.active
  let idle1 := if entering then 0 else s.idleFrames
  if active1 then
    let idle2 := if absDelta ≤ TWO_HAND_ZOOM_EXIT_DELTA then idle1 + 1 else 0
    let speedFactor : ℚ := if pairSpeed > TWO_HAND_FAST_SPEED then 0.4 else 1
    let step := clampQ (smoothedDelta * TWO_HAND_ZOOM_SENSITIVITY * speedFactor)
                  (-TWO_HAND_ZOOM_MAX_STEP) TWO_HAND_ZOOM_MAX_STEP
    let zoom2 := if absDelta > TWO_HAND_ZOOM_EXIT_DELTA then
                   clampQ (s.zoom * (1 + step)) 0.6 2.2
                 else s.zoom
    let stopping := idle2 ≥ TWO_HAND_IDLE_FRAMES_TO_STOP
    { prevDistance := some distanceNorm
      smoothedDelta := smoothedDelta
      active := if stopping then false else active1
      idleFrames := if stopping then 0 else idle2
      prevCenterA := some centerA
      prevCenterB := some centerB
      zoom := zoom2 }
  else
    { prevDistance := some distanceNorm
      smoothedDelta := smoothedDelta
      active := active1
      idleFrames := idle1
      prevCenterA := some centerA
      prevCenterB := some centerB
      zoom := s.zoom }

/-! ## Classifier stabilizer (infer.ts) -/

/-- `GESTURE_LABELS = [neutral, open_palm, pinch]` -/
inductive MlGestureLabel where
  | neutral
  | open_palm
  | pinch
deriving DecidableEq, Repr

/-- The stabilizer options of `GestureInferencer` that
`updateStableLabel` reads (defaults: 0.5 / 0.4 / 1 / 3.2). -/
structure StabilizerConfig where
  enterThreshold : ℚ
  exitThreshold : ℚ
  switchFrames : ℕ
  transitionVelocityLimit : ℚ

/-- The mutable stabilizer fields touched by `updateStableLabel`:
`stableLabel` and `pendingSwitch`. -/
structure StabilizerState where
  stableLabel : MlGestureLabel
  pendingSwitch : Option (MlGestureLabel × ℕ)
deriving DecidableEq, Repr

/-- A smoothed class distribution `(neutral, open_palm, pinch)` — the
`this.smoothed` array of the inferencer at the time `updateStableLabel`
runs. -/
def score (smoothed : ℚ × ℚ × ℚ) : MlGestureLabel → ℚ
  | MlGestureLabel.neutral => smoothed.1
  | MlGestureLabel.open_palm => smoothed.2.1
  | MlGestureLabel.pinch => smoothed.2.2

/-- `argMax` (infer.ts, lines 33-43) specialised to the three smoothed
scores: scans left to right keeping the first maximum (strict `>` to
replace). -/
def argMax3 (smoothed : ℚ × ℚ × ℚ) : MlGestureLabel :=
  let best1 := if smoothed.2.1 > smoothed.1 then MlGestureLabel.open_palm
               else MlGestureLabel.neutral
  if smoothed.2.2 > score smoothed best1 then MlGestureLabel.pinch else best1

/-- `GestureInferencer.updateStableLabel` (infer.ts, lines 138-171), as a
pure update of `(stableLabel, pendingSwitch)` given the smoothed
distribution and the instantaneous hand velocity of the frame. -/
def updateStableLabel (cfg : StabilizerConfig) (st : StabilizerState)
    (smoothed : ℚ × ℚ × ℚ) (handVelocity : ℚ) : StabilizerState :=
  if handVelocity > cfg.transitionVelocityLimit then
    { st with pendingSwitch := none }
  else
    let currentScore := score smoothed st.stableLabel
    if st.stableLabel ≠ MlGestureLabel.neutral ∧ currentScore < cfg.exitThreshold ∧
        smoothed.1 > cfg.enterThreshold then
      { stableLabel := MlGestureLabel.neutral, pendingSwitch := none }
    else
      let candidate := argMax3 smoothed
      let candidateScore := score smoothed candidate
      if candidate = st.stableLabel ∨ candidateScore < cfg.enterThreshold then
        { st with pendingSwitch := none }
      else
        match st.pendingSwitch with
        | none => { st with pendingSwitch := some (candidate, 1) }
        | some (pl, pf) =>
            if pl ≠ candidate then { st with pendingSwitch := some (candidate, 1) }
            else
              let frames := pf + 1
              if frames ≥ cfg.switchFrames then
                { stableLabel := candidate, pendingSwitch := none }
              else { st with pendingSwitch := some (candidate, frames) }

/-- Stabilizer state after `n` frames: frame `k` supplies the smoothed
distribution and hand velocity `inputs k`. -/
def stabAt (cfg : StabilizerConfig) (s0 : StabilizerState)
    (inputs : ℕ → (ℚ × ℚ × ℚ) × ℚ) : ℕ → StabilizerState
  | 0 => s0
  | n + 1 => updateStableLabel cfg (stabAt cfg s0 inputs n) (inputs n).1 (inputs n).2

/-- The stable label changed on frame `n`. -/
def labelChangedAt (cfg : StabilizerConfig) (s0 : StabilizerState)
    (inputs : ℕ → (ℚ × ℚ × ℚ) × ℚ) (n : ℕ) : Prop :=
  (stabAt cfg s0 inputs (n + 1)).stableLabel ≠ (stabAt cfg s0 inputs n).stableLabel

/-! ## Feature extraction (features.ts) -/

/-- `FEATURE_DIM` -/
def FEATURE_DIM : ℕ := 32

/-- `safeRatio` (features.ts).  The `Number.isFinite` guards of the
source are vacuous over `ℚ`; the near-zero-denominator guard remains. -/
def safeRatio (numerator denominator : ℚ) (fallback : ℚ := 0) : ℚ :=
  if |denominator| < 1 / 1000000 then fallback else numerator / denominator

/-- `normalizedDistance` (features.ts), applied to the two already
retrieved landmarks: `dist2D(a, b) / handScale` through `safeRatio`. -/
def normalizedDistance (sqrtQ : ℚ → ℚ) (a b : Landmark) (handScale : ℚ) : ℚ :=
  safeRatio (dist2D sqrtQ a b) handScale

/-- `curlProxy` (features.ts) on the retrieved tip/pip/mcp landmarks. -/
def curlProxy (sqrtQ : ℚ → ℚ) (tip pip mcp : Landmark) : ℚ :=
  clampQ (safeRatio (dist2D sqrtQ tip mcp) (dist2D sqrtQ pip mcp) 1) 0 3

/-- `tipVelocityNorm` (features.ts): displacement of landmark `index`
against the previous frame, normalised by hand scale and elapsed time;
0 when there is no previous frame or the landmark is missing on either
side. -/
def tipVelocityNorm (sqrtQ : ℚ → ℚ) (landmarks : List Landmark)
    (previousLandmarks : Option (List Landmark)) (index : ℕ) (handScale dtSec : ℚ) : ℚ :=
  match previousLandmarks with
  | none => 0
  | some prev =>
      match landmarks.get? index, prev.get? index with
      | some nowLm, some prevLm =>
          safeRatio (hypotQ sqrtQ (nowLm.x - prevLm.x) (nowLm.y - prevLm.y))
            (maxQ (1 / 1000) (handScale * dtSec))
      | _, _ => 0

/-- `palmCenter` (features.ts): mean of wrist, index MCP, middle MCP and
pinky MCP; `none` when one of them is missing (the source would throw). -/
def palmCenterQ (landmarks : List Landmark) : Option (ℚ × ℚ) := do
  let wrist ← landmarks.get? 0
  let indexMcp ← landmarks.get? 5
  let middleMcp ← landmarks.get? 9
  let pinkyMcp ← landmarks.get? 17
  pure ((wrist.x + indexMcp.x + middleMcp.x + pinkyMcp.x) / 4,
        (wrist.y + indexMcp.y + middleMcp.y + pinkyMcp.y) / 4)

/-- `type FeatureFrame` (features.ts). -/
structure FeatureFrame where
  vector : List ℚ
  handVelocity : ℚ
deriving DecidableEq, Repr

/-- The hand-velocity scalar of `extractFrameFeatures` (features.ts,
lines 365-374): palm-center displacement normalised by hand scale and
elapsed time; 0 when there is no previous frame; `none` when a palm
landmark needed by `palmCenter` is missing (the source would throw). -/
def frameHandVelocity (sqrtQ : ℚ → ℚ) (landmarks : List Landmark)
    (previousLandmarks : Option (List Landmark)) (handScale dtSec : ℚ) : Option ℚ :=
  match previousLandmarks with
  | none => some 0
  | some prev =>
      match palmCenterQ landmarks, palmCenterQ prev with
      | some centerNow, some centerPrev =>
          some (safeRatio
            (hypotQ sqrtQ (centerNow.1 - centerPrev.1) (centerNow.2 - centerPrev.2))
            (maxQ (1 / 1000) (handScale * dtSec)))
      | _, _ => none

/-- The unclamped feature components of `extractFrameFeatures`
(features.ts, lines 322-363) — distances, curls, spread and per-landmark
velocities, in the exact order of the source — computed from the sixteen
landmarks that the source reads by its index constants. -/
def rawFeatureComponents (sqrtQ : ℚ → ℚ) (landmarks : List Landmark)
    (previousLandmarks : Option (List Landmark)) (handScale dtSec : ℚ)
    (wrist thumbCmc thumbIp thumbTip indexMcp indexPip indexTip middleMcp middlePip
      middleTip ringMcp ringPip ringTip pinkyMcp pinkyPip pinkyTip : Landmark) : List ℚ :=
  [ normalizedDistance sqrtQ thumbTip indexTip handScale,
    normalizedDistance sqrtQ indexTip middleTip handScale,
    normalizedDistance sqrtQ middleTip ringTip handScale,
    normalizedDistance sqrtQ ringTip pinkyTip handScale,
    normalizedDistance sqrtQ thumbTip pinkyTip handScale,
    normalizedDistance sqrtQ wrist indexTip handScale,
    normalizedDistance sqrtQ wrist middleTip handScale,
    normalizedDistance sqrtQ wrist ringTip handScale,
    normalizedDistance sqrtQ wrist pinkyTip handScale,
    normalizedDistance sqrtQ indexMcp pinkyMcp handScale,
    normalizedDistance sqrtQ thumbIp thumbTip handScale,
    normalizedDistance sqrtQ indexPip indexTip handScale,
    normalizedDistance sqrtQ middlePip middleTip handScale,
    normalizedDistance sqrtQ ringPip ringTip handScale,
    normalizedDistance sqrtQ pinkyPip pinkyTip handScale ] ++
  [ curlProxy sqrtQ thumbTip thumbIp thumbCmc,
    curlProxy sqrtQ indexTip indexPip indexMcp,
    curlProxy sqrtQ middleTip middlePip middleMcp,
    curlProxy sqrtQ ringTip ringPip ringMcp,
    curlProxy sqrtQ pinkyTip pinkyPip pinkyMcp ] ++
  [ normalizedDistance sqrtQ thumbTip indexMcp handScale,
    normalizedDistance sqrtQ indexTip middleTip handScale,
    normalizedDistance sqrtQ middleTip ringTip handScale,
    normalizedDistance sqrtQ ringTip pinkyTip handScale,
    normalizedDistance sqrtQ wrist middleMcp handScale ] ++
  [ tipVelocityNorm sqrtQ landmarks previousLandmarks 0 handScale dtSec,
    tipVelocityNorm sqrtQ landmarks previousLandmarks 4 handScale dtSec,
    tipVelocityNorm sqrtQ landmarks previousLandmarks 8 handScale dtSec,
    tipVelocityNorm sqrtQ landmarks previousLandmarks 12 handScale dtSec,
    tipVelocityNorm sqrtQ landmarks previousLandmarks 16 handScale dtSec,
    tipVelocityNorm sqrtQ landmarks previousLandmarks 20 handScale dtSec ]

/-- `extractFrameFeatures` (features.ts, lines 314-381).  The source
reads the sixteen landmarks named by its index constants; a missing one
throws (here: `none`).  Every component of the returned vector is
clamped to `[-5, 5]` (the `Number.isFinite` fallback of the source is
vacuous over `ℚ`). -/
def extractFrameFeatures (sqrtQ : ℚ → ℚ) (landmarks : List Landmark)
    (previousLandmarks : Option (List Landmark)) (dtMs : ℚ) : Option FeatureFrame :=
  let handScale := computeHandScale sqrtQ landmarks
  let dtSec := maxQ (1 / 120) (dtMs / 1000)
  match landmarks.get? 0, landmarks.get? 1, landmarks.get? 3, landmarks.get? 4,
      landmarks.get? 5, landmarks.get? 6, landmarks.get? 8, landmarks.get? 9,
      landmarks.get? 10, landmarks.get? 12, landmarks.get? 13, landmarks.get? 14,
      landmarks.get? 16, landmarks.get? 17, landmarks.get? 18, landmarks.get? 20 with
  | some wrist, some thumbCmc, some thumbIp, some thumbTip, some indexMcp, some indexPip,
      some indexTip, some middleMcp, some middlePip, some middleTip, some ringMcp,
      some ringPip, some ringTip, some pinkyMcp, some pinkyPip, some pinkyTip =>
      match frameHandVelocity sqrtQ landmarks previousLandmarks handScale dtSec with
      | some handVelocity =>
          some { vector :=
                   (rawFeatureComponents sqrtQ landmarks previousLandmarks handScale dtSec
                       wrist thumbCmc thumbIp thumbTip indexMcp indexPip indexTip middleMcp
                       middlePip middleTip ringMcp ringPip ringTip pinkyMcp pinkyPip pinkyTip
                     ++ [handVelocity]).map (fun value => clampQ value (-5) 5),
                 handVelocity := handVelocity }
      | none => none
  | _, _, _, _, _, _, _, _, _, _, _, _, _, _, _, _ => none

/-! ## Open-palm scroll dispatch (useGestureControl.ts, lines 796-834) -/

def SCROLL_PALM_DELTA_THRESHOLD : ℚ := 0.007
def SCROLL_GAIN : ℚ := 760
def SCROLL_COOLDOWN_MS : ℚ := 12
def SCROLL_ARM_FRAMES : ℕ := 4

/-- The refs of the open-palm scroll detector. -/
structure ScrollState where
  armFrames : ℕ
  prevPalmY : Option ℚ
  prevPalmX : Option ℚ
  lastScrollTime : ℚ
deriving DecidableEq, Repr

/-- One open-palm frame of the scroll detector (useGestureControl.ts,
lines 796-834): returns the updated refs and, when a scroll is
dispatched, the `(scrollDeltaX, scrollDeltaY)` passed to
`scrollByTarget`. -/
def openPalmScrollFrame (s : ScrollState) (wrist middleMcp : Landmark) (now : ℚ) :
    ScrollState × Option (ℚ × ℚ) :=
  let palmCenterX := (wrist.x + middleMcp.x) / 2
  let palmCenterY := (wrist.y + middleMcp.y) / 2
  let armFrames := s.armFrames + 1
  let base : ScrollState :=
    { armFrames := armFrames, prevPalmY := some palmCenterY,
      prevPalmX := some palmCenterX, lastScrollTime := s.lastScrollTime }
  match s.prevPalmY, s.prevPalmX with
  | some prevY, some prevX =>
      if armFrames ≥ SCROLL_ARM_FRAMES then
        let palmDelta := palmCenterY - prevY
        let palmDeltaX := palmCenterX - prevX
        if (|palmDelta| > SCROLL_PALM_DELTA_THRESHOLD ∨
              |palmDeltaX| > SCROLL_PALM_DELTA_THRESHOLD) ∧
            now - s.lastScrollTime > SCROLL_COOLDOWN_MS then
          ({ base with lastScrollTime := now },
           some (clampQ (palmDeltaX * SCROLL_GAIN) (-46) 46,
                 clampQ (-palmDelta * SCROLL_GAIN) (-46) 46))
        else (base, none)
      else (base, none)
  | _, _ => (base, none)

/-! ## Ring buffer (ringBuffer.ts) and the inference call site -/

/-- `class RingBuffer<T>` (ringBuffer.ts). -/
structure RingBuffer (α : Type) where
  capacityValue : ℕ
  values : List α
deriving DecidableEq, Repr

/-- `new RingBuffer(capacity)`: capacity is clamped below by 1. -/
def RingBuffer.create (α : Type) (capacity : ℕ) : RingBuffer α :=
  { capacityValue := max 1 capacity, values := [] }

/-- `push`: append, then shift the oldest entry once over capacity. -/
def RingBuffer.push {α : Type} (b : RingBuffer α) (value : α) : RingBuffer α :=
  let vs := b.values ++ [value]
  if vs.length > b.capacityValue then { b with values := vs.tail }
  else { b with values := vs }

/-- `clear` -/
def RingBuffer.clear {α : Type} (b : RingBuffer α) : RingBuffer α :=
  { b with values := [] }

/-- `isFull` -/
def RingBuffer.isFull {α : Type} (b : RingBuffer α) : Bool :=
  b.values.length = b.capacityValue

/-- `size` -/
def RingBuffer.size {α : Type} (b : RingBuffer α) : ℕ :=
  b.values.length

/-- `ML_SEQUENCE_LENGTH` (useGestureControl.ts). -/
def ML_SEQUENCE_LENGTH : ℕ := 30

/-- `padSequenceToLength` (useGestureControl.ts, lines 316-322): `null`
for an empty sequence; otherwise truncate from the front or pad at the
front with copies of the first vector until `targetLength`. -/
def padSequenceToLength (sequence : List (List ℚ)) (targetLength : ℕ) :
    Option (List (List ℚ)) :=
  if sequence.length = 0 then none
  else if sequence.length = targetLength then some sequence
  else if sequence.length > targetLength then
    some (sequence.drop (sequence.length - targetLength))
  else some (List.replicate (targetLength - sequence.length) sequence.headI ++ sequence)

/-- The gating of `GestureInferencer.predict` (infer.ts, lines 173-201)
up to the model invocation: `true` exactly when the frame reaches
`this.model.predict`.  `frameCounter` is the counter value before the
call (the source increments it first). -/
def predictInvokesModel (modelLoaded : Bool) (sequenceLength : ℕ) (sequence : List (List ℚ))
    (modelFeatureDim : Option ℕ) (frameCounter inferEveryNFrames : ℕ) : Bool :=
  if ¬modelLoaded ∨ sequence.length ≠ sequenceLength ∨ sequence.length = 0 then false
  else
    let featureDim := sequence.headI.length
    if featureDim = 0 then false
    else
      match modelFeatureDim with
      | some d => if featureDim ≠ d then false
                  else decide ((frameCounter + 1) % inferEveryNFrames = 0)
      | none => decide ((frameCounter + 1) % inferEveryNFrames = 0)

/-- The inference call site of `hands.onResults` (useGestureControl.ts,
lines 748-758) composed with the gating of `predict`: whether the frame
with buffer contents `buffer` runs the external classifier. -/
def frameInvokesClassifier (mlInferenceEnabled modelLoaded : Bool) (buffer : List (List ℚ))
    (modelFeatureDim : Option ℕ) (frameCounter inferEveryNFrames : ℕ) : Bool :=
  if mlInferenceEnabled then
    match padSequenceToLength buffer ML_SEQUENCE_LENGTH with
    | some sequenceForInference =>
        predictInvokesModel modelLoaded ML_SEQUENCE_LENGTH sequenceForInference
          modelFeatureDim frameCounter inferEveryNFrames
    | none => false
  else false

/-! ## The no-hand branch (useGestureControl.ts, lines 596-619) -/

/-- `NO_HAND_RESET_FRAMES` -/
def NO_HAND_RESET_FRAMES : ℕ := 8

/-- The per-session refs touched (or deliberately left untouched) by the
no-hand branch of `hands.onResults`. -/
structure GestureSessionState where
  noHandFrames : ℕ
  clickState : ClickState
  pinchStartCandidateAt : Option ℚ
  stablePinchFrames : ℕ
  scrollArmFrames : ℕ
  twoHandPreviousDistance : Option ℚ
  twoHandSmoothedDelta : ℚ
  twoHandActive : Bool
  twoHandIdleFrames : ℕ
  twoHandPrevCenterA : Option Landmark
  twoHandPrevCenterB : Option Landmark
  featureBuffer : RingBuffer (List ℚ)
  lastLandmarks : Option (List Landmark)
  cursor : ℚ × ℚ
deriving DecidableEq, Repr

/-- One frame on which no hand is detected (useGestureControl.ts, lines
596-619): per-gesture transient refs are reset every such frame; the
feature buffer and the previous-landmark cache are cleared once the
counter reaches `NO_HAND_RESET_FRAMES`; the filtered cursor
(`lastCursorRef`) is left untouched (the branch returns before the
cursor update).  UI setters are omitted. -/
def noHandFrame (s : GestureSessionState) : GestureSessionState :=
  let n := s.noHandFrames + 1
  { s with
      noHandFrames := n
      clickState := IDLE
      pinchStartCandidateAt := none
      stablePinchFrames := 0
      scrollArmFrames := 0
      twoHandPreviousDistance := none
      twoHandSmoothedDelta := 0
      twoHandActive := false
      twoHandIdleFrames := 0
      twoHandPrevCenterA := none
      twoHandPrevCenterB := none
      featureBuffer := if n ≥ NO_HAND_RESET_FRAMES then s.featureBuffer.clear
                       else s.featureBuffer
      lastLandmarks := if n ≥ NO_HAND_RESET_FRAMES then none else s.lastLandmarks }

/-- `k` consecutive no-hand frames. -/
def noHandRun (s : GestureSessionState) : ℕ → GestureSessionState
  | 0 => s
  | k + 1 => noHandFrame (noHandRun s k)

/-! ## Basic lemmas about the numeric helpers -/

theorem maxQ_eq_max (a b : ℚ) : maxQ a b = max a b := by
  rw [maxQ, max_def]

theorem minQ_eq_min (a b : ℚ) : minQ a b = min a b := by
  rw [minQ, min_def]

theorem clampQ_eq (v lo hi : ℚ) : clampQ v lo hi = min hi (max lo v) := by
  rw [clampQ, minQ_eq_min, maxQ_eq_max]

theorem clampQ_le_hi (v lo hi : ℚ) : clampQ v lo hi ≤ hi := by
  rw [clampQ_eq]; exact min_le_left _ _

theorem lo_le_clampQ (v : ℚ) {lo hi : ℚ} (h : lo ≤ hi) : lo ≤ clampQ v lo hi := by
  rw [clampQ_eq]; exact le_min h (le_max_left _ _)

theorem le_maxQ_left (a b : ℚ) : a ≤ maxQ a b := by
  rw [maxQ_eq_max]; exact le_max_left _ _

theorem neg_le_clampQ_self {v lo hi : ℚ} (h : -hi ≤ lo) (h2 : 0 ≤ hi) :
    -hi ≤ clampQ v lo hi := by
  rw [clampQ_eq]
  exact le_min (by linarith) (le_trans h (le_max_left _ _))

theorem abs_clampQ_le {v lo hi : ℚ} (h : -hi ≤ lo) (h2 : 0 ≤ hi) :
    |clampQ v lo hi| ≤ hi :=
  abs_le.mpr ⟨neg_le_clampQ_self h h2, clampQ_le_hi v lo hi⟩

theorem clampQ_pos {v lo hi : ℚ} (hhi : 0 < hi) (hv : 0 < v) : 0 < clampQ v lo hi := by
  rw [clampQ_eq]
  exact lt_min hhi (lt_of_lt_of_le hv (le_max_right _ _))

theorem clampQ_neg {v lo hi : ℚ} (hlo : lo < 0) (hv : v < 0) : clampQ v lo hi < 0 := by
  rw [clampQ_eq]
  exact lt_of_le_of_lt (min_le_right _ _) (max_lt hlo hv)

/-- Clamping to an interval does not increase the distance to a point of
that interval. -/
theorem abs_clampQ_sub_le {v lo hi z : ℚ} (hlo : lo ≤ z) (hhi : z ≤ hi) :
    |clampQ v lo hi - z| ≤ |v - z| := by
  rw [clampQ_eq]
  rcases le_total v lo with h1 | h1
  · rw [max_eq_left h1, min_eq_right (hlo.trans hhi)]
    rw [abs_of_nonpos (by linarith), abs_of_nonpos (by linarith)]
    linarith
  · rw [max_eq_right h1]
    rcases le_total v hi with h2 | h2
    · rw [min_eq_right h2]
    · rw [min_eq_left h2]
      rw [abs_of_nonneg (by linarith), abs_of_nonneg (by linarith)]
      linarith

/-! ## C2: reachable edges of the click state machine -/

/-- C2: for every input state of the pinch/click state machine and every
combination of the shouldStartPinch / shouldReleasePinch signals (and
any times), the returned next state either equals the input state or
follows one of the edges IDLE→PINCHING, PINCHING→CLICKED,
PINCHING→RELEASED, CLICKED→RELEASED, RELEASED→IDLE; no other transition
is reachable. -/
theorem clickStateMachine_edges (state : ClickState) (start rel : Bool)
    (nowMs lastClickMs : ℚ) :
    (clickStateMachine state start rel nowMs lastClickMs).1 = state ∨
      (state = IDLE ∧ (clickStateMachine state start rel nowMs lastClickMs).1 = PINCHING) ∨
      (state = PINCHING ∧ (clickStateMachine state start rel nowMs lastClickMs).1 = CLICKED) ∨
      (state = PINCHING ∧ (clickStateMachine state start rel nowMs lastClickMs).1 = RELEASED) ∨
      (state = CLICKED ∧ (clickStateMachine state start rel nowMs lastClickMs).1 = RELEASED) ∨
      (state = RELEASED ∧ (clickStateMachine state start rel nowMs lastClickMs).1 = IDLE) := by
  cases state <;> cases start <;> cases rel <;>
    simp only [clickStateMachine] <;> split_ifs <;> simp

/-! ## C1: click events fire exactly on PINCHING→CLICKED, cooldown-limited -/

theorem clickFrame_fired_iff (s : ClickSession) (i : ClickInput) :
    (clickFrame s i).2 = true ↔
      (i.reset = false ∧ s.click = PINCHING ∧ i.start = true ∧
        i.now - s.lastClick > PINCH_COOLDOWN_MS) := by
  rcases s with ⟨c, l⟩
  rcases i with ⟨rst, st, rel, now⟩
  cases rst
  · cases c <;> cases st <;> cases rel <;>
      simp only [clickFrame, clickStateMachine, if_false, Bool.false_eq_true] <;>
      first
        | (split_ifs <;> simp_all)
        | simp_all
  · simp [clickFrame]

theorem clickFrame_click_of_fired {s : ClickSession} {i : ClickInput}
    (h : (clickFrame s i).2 = true) : ((clickFrame s i).1).click = CLICKED := by
  rcases s with ⟨c, l⟩
  rcases i with ⟨rst, st, rel, now⟩
  cases rst
  · cases c <;> cases st <;> cases rel <;>
      simp only [clickFrame, clickStateMachine, if_false, Bool.false_eq_true] at h ⊢ <;>
      first
        | (split_ifs at h ⊢ <;> simp_all)
        | simp_all
  · simp [clickFrame] at h

theorem clickFrame_clicked_fired {s : ClickSession} {i : ClickInput}
    (hr : i.reset = false) (hc : s.click = PINCHING)
    (hn : ((clickFrame s i).1).click = CLICKED) : (clickFrame s i).2 = true := by
  rcases s with ⟨c, l⟩
  rcases i with ⟨rst, st, rel, now⟩
  cases hr
  cases hc
  cases st <;> cases rel <;>
    simp only [clickFrame, clickStateMachine, if_false, Bool.false_eq_true] at hn ⊢ <;>
    first
      | (split_ifs at hn ⊢ <;> simp_all)
      | simp_all

theorem clickFrame_lastClick_eq (s : ClickSession) (i : ClickInput) :
    ((clickFrame s i).1).lastClick =
      if (clickFrame s i).2 = true then i.now else s.lastClick := by
  rcases i with ⟨rst, st, rel, now⟩
  cases rst
  · simp only [clickFrame, if_false, Bool.false_eq_true]
  · simp [clickFrame]

theorem clickFrame_lastClick_mono (s : ClickSession) (i : ClickInput) :
    s.lastClick ≤ ((clickFrame s i).1).lastClick := by
  rw [clickFrame_lastClick_eq]
  by_cases h : (clickFrame s i).2 = true
  · rw [if_pos h]
    have := ((clickFrame_fired_iff s i).mp h).2.2.2
    have hpos : (0 : ℚ) < PINCH_COOLDOWN_MS := by norm_num [PINCH_COOLDOWN_MS]
    linarith
  · rw [if_neg h]

theorem sessionAt_lastClick_mono (s0 : ClickSession) (inputs : ℕ → ClickInput)
    {m n : ℕ} (h : m ≤ n) :
    (sessionAt s0 inputs m).lastClick ≤ (sessionAt s0 inputs n).lastClick := by
  induction n with
  | zero =>
      cases Nat.le_zero.mp h
      exact le_refl _
  | succ k ih =>
      rcases Nat.lt_or_ge m (k + 1) with hm | hm
      · exact le_trans (ih (Nat.lt_succ_iff.mp hm))
          (clickFrame_lastClick_mono (sessionAt s0 inputs k) (inputs k))
      · cases Nat.le_antisymm h hm
        exact le_refl _

/-- C1: a click event is emitted exactly on the PINCHING→CLICKED
transition of the pinch/click state machine, and only when the time
since the last click exceeds PINCH_COOLDOWN_MS = 260ms; consequently,
over any frame sequence, any two click events are separated by more than
the cooldown, regardless of continued pinch signal. -/
theorem click_cooldown_rate_limit :
    (∀ (s : ClickSession) (i : ClickInput),
        (clickFrame s i).2 = true ↔
          (i.reset = false ∧ s.click = PINCHING ∧ ((clickFrame s i).1).click = CLICKED ∧
            i.now - s.lastClick > PINCH_COOLDOWN_MS)) ∧
    (∀ (s0 : ClickSession) (inputs : ℕ → ClickInput) (i j : ℕ),
        i < j → firedAt s0 inputs i = true → firedAt s0 inputs j = true →
        (inputs j).now - (inputs i).now > PINCH_COOLDOWN_MS) := by
  constructor
  · intro s i
    constructor
    · intro h
      rcases (clickFrame_fired_iff s i).mp h with ⟨hr, hc, _, hcool⟩
      exact ⟨hr, hc, clickFrame_click_of_fired h, hcool⟩
    · rintro ⟨hr, hc, hn, _⟩
      exact clickFrame_clicked_fired hr hc hn
  · intro s0 inputs i j hij hi hj
    have hi' : (clickFrame (sessionAt s0 inputs i) (inputs i)).2 = true := hi
    have hieq : (sessionAt s0 inputs (i + 1)).lastClick = (inputs i).now := by
      show ((clickFrame (sessionAt s0 inputs i) (inputs i)).1).lastClick = (inputs i).now
      rw [clickFrame_lastClick_eq, if_pos hi']
    have hmono : (sessionAt s0 inputs (i + 1)).lastClick ≤
        (sessionAt s0 inputs j).lastClick :=
      sessionAt_lastClick_mono s0 inputs hij
    have hcool : (inputs j).now - (sessionAt s0 inputs j).lastClick > PINCH_COOLDOWN_MS :=
      ((clickFrame_fired_iff _ _).mp hj).2.2.2
    rw [hieq] at hmono
    linarith

/-- Witness for C1: a concrete five-frame run in which clicks fire on
frames 0 and 4, 300 ms apart — more than the 260 ms cooldown. -/
theorem click_cooldown_rate_limit_witness :
    firedAt ⟨PINCHING, 0⟩
        (fun n => if n = 0 then ⟨false, true, false, 300⟩
          else if n = 1 then ⟨false, false, true, 310⟩
          else if n = 2 then ⟨false, false, false, 320⟩
          else if n = 3 then ⟨false, true, false, 330⟩
          else ⟨false, true, false, 600⟩) 0 = true ∧
    firedAt ⟨PINCHING, 0⟩
        (fun n => if n = 0 then ⟨false, true, false, 300⟩
          else if n = 1 then ⟨false, false, true, 310⟩
          else if n = 2 then ⟨false, false, false, 320⟩
          else if n = 3 then ⟨false, true, false, 330⟩
          else ⟨false, true, false, 600⟩) 4 = true ∧
    ((fun n => if n = 0 then (⟨false, true, false, 300⟩ : ClickInput)
          else if n = 1 then ⟨false, false, true, 310⟩
          else if n = 2 then ⟨false, false, false, 320⟩
          else if n = 3 then ⟨false, true, false, 330⟩
          else ⟨false, true, false, 600⟩) 4).now -
      ((fun n => if n = 0 then (⟨false, true, false, 300⟩ : ClickInput)
          else if n = 1 then ⟨false, false, true, 310⟩
          else if n = 2 then ⟨false, false, false, 320⟩
          else if n = 3 then ⟨false, true, false, 330⟩
          else ⟨false, true, false, 600⟩) 0).now > PINCH_COOLDOWN_MS := by
  have h0 : firedAt ⟨PINCHING, 0⟩
      (fun n => if n = 0 then ⟨false, true, false, 300⟩
        else if n = 1 then ⟨false, false, true, 310⟩
        else if n = 2 then ⟨false, false, false, 320⟩
        else if n = 3 then ⟨false, true, false, 330⟩
        else ⟨false, true, false, 600⟩) 0 = true := by
    norm_num [firedAt, sessionAt, clickFrame, clickStateMachine, PINCH_COOLDOWN_MS]
  have h4 : firedAt ⟨PINCHING, 0⟩
      (fun n => if n = 0 then ⟨false, true, false, 300⟩
        else if n = 1 then ⟨false, false, true, 310⟩
        else if n = 2 then ⟨false, false, false, 320⟩
        else if n = 3 then ⟨false, true, false, 330⟩
        else ⟨false, true, false, 600⟩) 4 = true := by
    norm_num [firedAt, sessionAt, clickFrame, clickStateMachine, PINCH_COOLDOWN_MS]
  exact ⟨h0, h4, click_cooldown_rate_limit.2 _ _ 0 4 (by norm_num) h0 h4⟩

/-! ## C6: the hand scale is bounded below -/

/-- C6: for every landmark list (including lists with missing required
landmarks, which take the safe default 0.12) and every square-root
interpretation, `computeHandScale` returns at least 0.02 — the hand
scale is never zero or negative. -/
theorem computeHandScale_ge_min (sqrtQ : ℚ → ℚ) (landmarks : List Landmark) :
    (0.02 : ℚ) ≤ computeHandScale sqrtQ landmarks := by
  unfold computeHandScale
  rcases landmarks.get? 0 with _ | w
  · show (0.02 : ℚ) ≤ (0.12 : ℚ)
    norm_num
  rcases landmarks.get? 9 with _ | m
  · show (0.02 : ℚ) ≤ (0.12 : ℚ)
    norm_num
  rcases landmarks.get? 5 with _ | i
  · show (0.02 : ℚ) ≤ (0.12 : ℚ)
    norm_num
  rcases landmarks.get? 17 with _ | p
  · show (0.02 : ℚ) ≤ (0.12 : ℚ)
    norm_num
  exact le_maxQ_left _ _

/-! ## C3: zoom bounds and per-frame step (corrected) -/

theorem zoom_step_bounds {z d lo hi cap : ℚ} (hz1 : lo ≤ z) (hz2 : z ≤ hi) (hlo : 0 < lo)
    (hcap : 0 ≤ cap) :
    lo ≤ clampQ (z * (1 + clampQ d (-cap) cap)) lo hi ∧
      clampQ (z * (1 + clampQ d (-cap) cap)) lo hi ≤ hi ∧
      |clampQ (z * (1 + clampQ d (-cap) cap)) lo hi - z| ≤ z * cap := by
  have hzpos : 0 < z := lt_of_lt_of_le hlo hz1
  have hstep : |clampQ d (-cap) cap| ≤ cap := abs_clampQ_le (by linarith) hcap
  refine ⟨lo_le_clampQ _ (hz1.trans hz2), clampQ_le_hi _ _ _, ?_⟩
  calc |clampQ (z * (1 + clampQ d (-cap) cap)) lo hi - z|
      ≤ |z * (1 + clampQ d (-cap) cap) - z| := abs_clampQ_sub_le hz1 hz2
    _ = |z * clampQ d (-cap) cap| := by
        rw [show z * (1 + clampQ d (-cap) cap) - z = z * clampQ d (-cap) cap by ring]
    _ = z * |clampQ d (-cap) cap| := by rw [abs_mul, abs_of_pos hzpos]
    _ ≤ z * cap := mul_le_mul_of_nonneg_left hstep (le_of_lt hzpos)

theorem zoomStateMachine_zoom (engine : ZoomEngine) (nowMs smoothedPinch stableDelta : ℚ)
    (isClickActive : Bool) (handVelocity : ℚ) (disableZoom : Bool) :
    (zoomStateMachine engine nowMs smoothedPinch stableDelta isClickActive handVelocity
        disableZoom).zoom = engine.zoom := by
  rcases engine with ⟨st, z, e, b, ph, cf, cd⟩
  cases st <;> unfold zoomStateMachine <;> dsimp only <;> split_ifs <;> rfl

set_option maxHeartbeats 1000000 in
/-- Single-hand update: the zoom factor stays within
`[MIN_ZOOM, MAX_ZOOM]` and moves by at most the relative step
`zoom * MAX_FRAME_ZOOM_STEP` in one frame. -/
theorem updateZoomGesture_zoom_bounds (sqrtQ : ℚ → ℚ) (engine : ZoomEngine)
    (landmarks : List Landmark) (nowMs : ℚ) (isClickActive : Bool) (handVelocity : ℚ)
    (disableZoom : Bool) (h1 : MIN_ZOOM ≤ engine.zoom) (h2 : engine.zoom ≤ MAX_ZOOM) :
    MIN_ZOOM ≤ (updateZoomGesture sqrtQ engine landmarks nowMs isClickActive handVelocity
        disableZoom).engine.zoom ∧
      (updateZoomGesture sqrtQ engine landmarks nowMs isClickActive handVelocity
        disableZoom).engine.zoom ≤ MAX_ZOOM ∧
      |(updateZoomGesture sqrtQ engine landmarks nowMs isClickActive handVelocity
          disableZoom).engine.zoom - engine.zoom| ≤ engine.zoom * MAX_FRAME_ZOOM_STEP := by
  have hzpos : (0 : ℚ) < engine.zoom :=
    lt_of_lt_of_le (by norm_num [MIN_ZOOM]) h1
  have hcap : (0 : ℚ) ≤ MAX_FRAME_ZOOM_STEP := by norm_num [MAX_FRAME_ZOOM_STEP]
  have hsame : ∀ e : ZoomEngine, e.zoom = engine.zoom →
      MIN_ZOOM ≤ e.zoom ∧ e.zoom ≤ MAX_ZOOM ∧
        |e.zoom - engine.zoom| ≤ engine.zoom * MAX_FRAME_ZOOM_STEP := by
    intro e he
    rw [he]
    exact ⟨h1, h2, by rw [sub_self, abs_zero]; exact mul_nonneg (le_of_lt hzpos) hcap⟩
  simp only [updateZoomGesture]
  split_ifs <;>
    simp only [zoomStateMachine_zoom] <;>
    first
      | exact hsame _ rfl
      | exact zoom_step_bounds h1 h2 (by norm_num [MIN_ZOOM]) hcap

/-- The in-bounds invariant is preserved over every input sequence. -/
theorem runZoomUpdates_bounds (sqrtQ : ℚ → ℚ) (engine : ZoomEngine)
    (frames : List (List Landmark × ℚ × Bool × ℚ × Bool))
    (h1 : MIN_ZOOM ≤ engine.zoom) (h2 : engine.zoom ≤ MAX_ZOOM) :
    MIN_ZOOM ≤ (runZoomUpdates sqrtQ engine frames).zoom ∧
      (runZoomUpdates sqrtQ engine frames).zoom ≤ MAX_ZOOM := by
  induction frames generalizing engine with
  | nil => exact ⟨h1, h2⟩
  | cons f rest ih =>
      have hstep := updateZoomGesture_zoom_bounds sqrtQ engine f.1 f.2.1 f.2.2.1 f.2.2.2.1
        f.2.2.2.2 h1 h2
      exact ih _ hstep.1 hstep.2.1

/-- Two-hand update: the zoom factor stays within `[0.6, 2.2]` and moves
by at most the relative step `zoom * TWO_HAND_ZOOM_MAX_STEP` in one
frame. -/
theorem twoHandZoomFrame_zoom_bounds (sqrtQ : ℚ → ℚ) (s : TwoHandState)
    (wrist middleMcp secondWrist secondMiddleMcp : Landmark)
    (h1 : (0.6 : ℚ) ≤ s.zoom) (h2 : s.zoom ≤ (2.2 : ℚ)) :
    (0.6 : ℚ) ≤ (twoHandZoomFrame sqrtQ s wrist middleMcp secondWrist secondMiddleMcp).zoom ∧
      (twoHandZoomFrame sqrtQ s wrist middleMcp secondWrist secondMiddleMcp).zoom ≤ (2.2 : ℚ) ∧
      |(twoHandZoomFrame sqrtQ s wrist middleMcp secondWrist secondMiddleMcp).zoom - s.zoom| ≤
        s.zoom * TWO_HAND_ZOOM_MAX_STEP := by
  have hzpos : (0 : ℚ) < s.zoom := lt_of_lt_of_le (by norm_num) h1
  have hcap : (0 : ℚ) ≤ TWO_HAND_ZOOM_MAX_STEP := by norm_num [TWO_HAND_ZOOM_MAX_STEP]
  have hsame : (0.6 : ℚ) ≤ s.zoom ∧ s.zoom ≤ (2.2 : ℚ) ∧
      |s.zoom - s.zoom| ≤ s.zoom * TWO_HAND_ZOOM_MAX_STEP :=
    ⟨h1, h2, by rw [sub_self, abs_zero]; exact mul_nonneg (le_of_lt hzpos) hcap⟩
  simp only [twoHandZoomFrame]
  split_ifs <;>
    first
      | exact hsame
      | exact zoom_step_bounds h1 h2 (by norm_num) hcap

/-- C3 (amended): the zoom factor stays within `[MIN_ZOOM, MAX_ZOOM]`
after each single-hand update and over every input sequence, and within
`[0.6, 2.2]` for the two-hand path; the per-frame change of the zoom
value is bounded by the relative step `zoom * MAX_FRAME_ZOOM_STEP`
(resp. `zoom * TWO_HAND_ZOOM_MAX_STEP`) — the clamped quantity is the
multiplicative step, not the absolute zoom change. -/
theorem zoom_bounds_and_relative_step :
    (∀ (sqrtQ : ℚ → ℚ) (engine : ZoomEngine) (landmarks : List Landmark) (nowMs : ℚ)
        (isClickActive : Bool) (handVelocity : ℚ) (disableZoom : Bool),
      MIN_ZOOM ≤ engine.zoom → engine.zoom ≤ MAX_ZOOM →
        MIN_ZOOM ≤ (updateZoomGesture sqrtQ engine landmarks nowMs isClickActive handVelocity
            disableZoom).engine.zoom ∧
          (updateZoomGesture sqrtQ engine landmarks nowMs isClickActive handVelocity
            disableZoom).engine.zoom ≤ MAX_ZOOM ∧
          |(updateZoomGesture sqrtQ engine landmarks nowMs isClickActive handVelocity
              disableZoom).engine.zoom - engine.zoom| ≤ engine.zoom * MAX_FRAME_ZOOM_STEP) ∧
    (∀ (sqrtQ : ℚ → ℚ) (engine : ZoomEngine)
        (frames : List (List Landmark × ℚ × Bool × ℚ × Bool)),
      MIN_ZOOM ≤ engine.zoom → engine.zoom ≤ MAX_ZOOM →
        MIN_ZOOM ≤ (runZoomUpdates sqrtQ engine frames).zoom ∧
          (runZoomUpdates sqrtQ engine frames).zoom ≤ MAX_ZOOM) ∧
    (∀ (sqrtQ : ℚ → ℚ) (s : TwoHandState)
        (wrist middleMcp secondWrist secondMiddleMcp : Landmark),
      (0.6 : ℚ) ≤ s.zoom → s.zoom ≤ (2.2 : ℚ) →
        (0.6 : ℚ) ≤ (twoHandZoomFrame sqrtQ s wrist middleMcp secondWrist
            secondMiddleMcp).zoom ∧
          (twoHandZoomFrame sqrtQ s wrist middleMcp secondWrist secondMiddleMcp).zoom ≤
            (2.2 : ℚ) ∧
          |(twoHandZoomFrame sqrtQ s wrist middleMcp secondWrist secondMiddleMcp).zoom -
              s.zoom| ≤ s.zoom * TWO_HAND_ZOOM_MAX_STEP) :=
  ⟨fun sqrtQ engine lms nowMs clk vel dis h1 h2 =>
      updateZoomGesture_zoom_bounds sqrtQ engine lms nowMs clk vel dis h1 h2,
   fun sqrtQ engine frames h1 h2 => runZoomUpdates_bounds sqrtQ engine frames h1 h2,
   fun sqrtQ s w m w2 m2 h1 h2 => twoHandZoomFrame_zoom_bounds sqrtQ s w m w2 m2 h1 h2⟩

/-- Witness for C3 (amended) at a concrete engine with zoom 1. -/
theorem zoom_bounds_and_relative_step_witness :
    MIN_ZOOM ≤ (createZoomEngine 1).zoom ∧ (createZoomEngine 1).zoom ≤ MAX_ZOOM ∧
      (MIN_ZOOM ≤ (updateZoomGesture (fun _ => 0) (createZoomEngine 1) [] 0 false 0
          false).engine.zoom ∧
        (updateZoomGesture (fun _ => 0) (createZoomEngine 1) [] 0 false 0
          false).engine.zoom ≤ MAX_ZOOM ∧
        |(updateZoomGesture (fun _ => 0) (createZoomEngine 1) [] 0 false 0
            false).engine.zoom - (createZoomEngine 1).zoom| ≤
          (createZoomEngine 1).zoom * MAX_FRAME_ZOOM_STEP) := by
  have h1 : MIN_ZOOM ≤ (createZoomEngine 1).zoom := by norm_num [MIN_ZOOM, createZoomEngine]
  have h2 : (createZoomEngine 1).zoom ≤ MAX_ZOOM := by norm_num [MAX_ZOOM, createZoomEngine]
  exact ⟨h1, h2, zoom_bounds_and_relative_step.1 (fun _ => 0) (createZoomEngine 1) [] 0 false
    0 false h1 h2⟩

/-- Counterexample for C3 as stated: with zoom 2 (inside the bounds) and
a stable delta of 0.03, the clamped multiplicative step is 0.04 but the
zoom value moves from 2 to 2.08 — a per-frame change of 0.08, exceeding
MAX_FRAME_ZOOM_STEP = 0.04. -/
theorem zoom_absolute_step_counterexample :
    MIN_ZOOM ≤ (2 : ℚ) ∧ (2 : ℚ) ≤ MAX_ZOOM ∧
      (updateZoomGesture (fun _ => 0)
          ⟨ZoomGestureState.ZOOMING, 2, some (1 / 26), some 0, [], 0, 0⟩
          [] 0 false 0 false).engine.zoom = (2.08 : ℚ) ∧
      |(2.08 : ℚ) - 2| > MAX_FRAME_ZOOM_STEP := by
  refine ⟨by norm_num [MIN_ZOOM], by norm_num [MAX_ZOOM], ?_, by
    rw [abs_of_nonneg (by norm_num)]
    norm_num [MAX_FRAME_ZOOM_STEP]⟩
  norm_num [updateZoomGesture, computeNormalizedPinch, zoomStateMachine, rollingAverage,
    clampQ, minQ, maxQ, EMA_ALPHA, ROLLING_WINDOW, DEAD_BAND, ZOOM_SENSITIVITY,
    MAX_FRAME_ZOOM_STEP, ENTER_DELTA, EXIT_DELTA, HAND_VELOCITY_LIMIT, MIN_ZOOM, MAX_ZOOM,
    COOLDOWN_MS, abs_of_nonneg, List.get?]

/-! ## C4: stabilizer velocity gate and debounce (corrected) -/

theorem neutral_ne_open_palm : (MlGestureLabel.neutral = MlGestureLabel.open_palm) = False :=
  eq_false (fun h => MlGestureLabel.noConfusion h)

theorem neutral_ne_pinch : (MlGestureLabel.neutral = MlGestureLabel.pinch) = False :=
  eq_false (fun h => MlGestureLabel.noConfusion h)

theorem open_palm_ne_neutral : (MlGestureLabel.open_palm = MlGestureLabel.neutral) = False :=
  eq_false (fun h => MlGestureLabel.noConfusion h)

theorem open_palm_ne_pinch : (MlGestureLabel.open_palm = MlGestureLabel.pinch) = False :=
  eq_false (fun h => MlGestureLabel.noConfusion h)

theorem pinch_ne_neutral : (MlGestureLabel.pinch = MlGestureLabel.neutral) = False :=
  eq_false (fun h => MlGestureLabel.noConfusion h)

theorem pinch_ne_open_palm : (MlGestureLabel.pinch = MlGestureLabel.open_palm) = False :=
  eq_false (fun h => MlGestureLabel.noConfusion h)

theorem updateStableLabel_velocity_gate (cfg : StabilizerConfig) (st : StabilizerState)
    (smoothed : ℚ × ℚ × ℚ) (handVelocity : ℚ)
    (h : handVelocity > cfg.transitionVelocityLimit) :
    updateStableLabel cfg st smoothed handVelocity = { st with pendingSwitch := none } := by
  unfold updateStableLabel
  rw [if_pos h]

/-- Case analysis of one `updateStableLabel` step: the pending switch
either clears, or is freshly created at count 1 without a label change,
or is incremented by 1 without a label change. -/
theorem updateStableLabel_pending_cases (cfg : StabilizerConfig) (st : StabilizerState)
    (smoothed : ℚ × ℚ × ℚ) (handVelocity : ℚ) :
    (updateStableLabel cfg st smoothed handVelocity).pendingSwitch = none ∨
      (∃ c, (updateStableLabel cfg st smoothed handVelocity).pendingSwitch = some (c, 1) ∧
        (updateStableLabel cfg st smoothed handVelocity).stableLabel = st.stableLabel) ∨
      (∃ c f, st.pendingSwitch = some (c, f) ∧
        (updateStableLabel cfg st smoothed handVelocity).pendingSwitch = some (c, f + 1) ∧
        (updateStableLabel cfg st smoothed handVelocity).stableLabel = st.stableLabel) := by
  rcases st with ⟨lbl, pending⟩
  unfold updateStableLabel
  rcases pending with _ | ⟨pl, pf⟩
  · dsimp only
    split_ifs with h1 h2 h3
    · exact Or.inl rfl
    · exact Or.inl rfl
    · exact Or.inl rfl
    · exact Or.inr (Or.inl ⟨argMax3 smoothed, rfl, rfl⟩)
  · dsimp only
    split_ifs with h1 h2 h3 h4 h5
    · exact Or.inl rfl
    · exact Or.inl rfl
    · exact Or.inl rfl
    · exact Or.inr (Or.inl ⟨argMax3 smoothed, rfl, rfl⟩)
    · exact Or.inl rfl
    · refine Or.inr (Or.inr ⟨pl, pf, rfl, ?_, rfl⟩)
      rw [not_not.mp h4]

/-- If a step changes the stable label, then either the new label is
neutral (the hysteresis demotion), or the step consumed a pending switch
whose incremented count reached `switchFrames`. -/
theorem updateStableLabel_change_cases (cfg : StabilizerConfig) (st : StabilizerState)
    (smoothed : ℚ × ℚ × ℚ) (handVelocity : ℚ)
    (h : (updateStableLabel cfg st smoothed handVelocity).stableLabel ≠ st.stableLabel) :
    (updateStableLabel cfg st smoothed handVelocity).stableLabel = MlGestureLabel.neutral ∨
      (∃ c f, st.pendingSwitch = some (c, f) ∧ cfg.switchFrames ≤ f + 1) := by
  rcases st with ⟨lbl, pending⟩
  unfold updateStableLabel at h ⊢
  rcases pending with _ | ⟨pl, pf⟩
  · dsimp only at h ⊢
    split_ifs at h ⊢ with h1 h2 h3
    · exact absurd rfl h
    · exact Or.inl rfl
    · exact absurd rfl h
    · exact absurd rfl h
  · dsimp only at h ⊢
    split_ifs at h ⊢ with h1 h2 h3 h4 h5
    · exact absurd rfl h
    · exact Or.inl rfl
    · exact absurd rfl h
    · exact absurd rfl h
    · exact Or.inr ⟨pl, pf, rfl, h5⟩
    · exact absurd rfl h

theorem stabAt_pending_invariant (cfg : StabilizerConfig) (s0 : StabilizerState)
    (inputs : ℕ → (ℚ × ℚ × ℚ) × ℚ) (hs0 : s0.pendingSwitch = none) :
    ∀ n l f, (stabAt cfg s0 inputs n).pendingSwitch = some (l, f) →
      f ≤ n ∧ ∀ k, n - f ≤ k → k < n →
        (stabAt cfg s0 inputs (k + 1)).stableLabel = (stabAt cfg s0 inputs k).stableLabel := by
  intro n
  induction n with
  | zero =>
      intro l f hp
      rw [show stabAt cfg s0 inputs 0 = s0 from rfl, hs0] at hp
      exact absurd hp (by simp)
  | succ m ih =>
      intro l f hp
      have hstep := updateStableLabel_pending_cases cfg (stabAt cfg s0 inputs m)
        (inputs m).1 (inputs m).2
      have hpstep : (updateStableLabel cfg (stabAt cfg s0 inputs m) (inputs m).1
          (inputs m).2) = stabAt cfg s0 inputs (m + 1) := rfl
      rw [hpstep] at hstep
      rcases hstep with hnone | ⟨c, hc, hlc⟩ | ⟨c, f0, hc0, hc1, hlc⟩
      · rw [hnone] at hp
        exact absurd hp (by simp)
      · rw [hc] at hp
        injection hp with hp1
        injection hp1 with hpl hpf
        refine ⟨by omega, ?_⟩
        intro k hk1 hk2
        have hkm : k = m := by omega
        rw [hkm]
        exact hlc
      · rw [hc1] at hp
        injection hp with hp1
        injection hp1 with hpl hpf
        rcases ih c f0 hc0 with ⟨hf0, hwin⟩
        refine ⟨by omega, ?_⟩
        intro k hk1 hk2
        rcases Nat.lt_or_ge k m with hkm | hkm
        · exact hwin k (by omega) hkm
        · have hkm2 : k = m := by omega
          rw [hkm2]
          exact hlc

/-- C4 (amended): the stable gesture label never changes on a frame
whose instantaneous hand velocity exceeds transitionVelocityLimit, and
any pending candidate switch is discarded on such a frame; over every
frame sequence, a change of the stable label to a NON-NEUTRAL label
occurs at least switchFrames frames after any earlier change (the
debounced candidate path); the asymmetric hysteresis demotion to
neutral is exempt from the debounce window. -/
theorem stabilizer_gate_and_debounce :
    (∀ (cfg : StabilizerConfig) (st : StabilizerState) (smoothed : ℚ × ℚ × ℚ)
        (handVelocity : ℚ), handVelocity > cfg.transitionVelocityLimit →
      (updateStableLabel cfg st smoothed handVelocity).stableLabel = st.stableLabel ∧
        (updateStableLabel cfg st smoothed handVelocity).pendingSwitch = none) ∧
    (∀ (cfg : StabilizerConfig) (s0 : StabilizerState) (inputs : ℕ → (ℚ × ℚ × ℚ) × ℚ)
        (i j : ℕ), s0.pendingSwitch = none → i < j →
      labelChangedAt cfg s0 inputs i → labelChangedAt cfg s0 inputs j →
      (stabAt cfg s0 inputs (j + 1)).stableLabel ≠ MlGestureLabel.neutral →
      cfg.switchFrames ≤ j - i) := by
  constructor
  · intro cfg st sm v h
    rw [updateStableLabel_velocity_gate cfg st sm v h]
    exact ⟨rfl, rfl⟩
  · intro cfg s0 inputs i j hs0 hij hchi hchj hnn
    have hstep := updateStableLabel_change_cases cfg (stabAt cfg s0 inputs j)
      (inputs j).1 (inputs j).2 hchj
    rcases hstep with hneutral | ⟨c, f, hp, hsf⟩
    · exact absurd hneutral hnn
    · rcases stabAt_pending_invariant cfg s0 inputs hs0 j c f hp with ⟨hf, hwin⟩
      rcases Nat.lt_or_ge i (j - f) with hi | hi
      · omega
      · exact absurd (hwin i hi hij) hchi

/-- Witness for C4 (amended): the velocity gate at a concrete frame, and
the debounce gap on a concrete run with switchFrames = 1 in which the
label changes on frames 1 and 3, the second change being to open_palm. -/
theorem stabilizer_gate_and_debounce_witness :
    ((updateStableLabel ⟨1/2, 2/5, 1, 16/5⟩ ⟨MlGestureLabel.neutral,
        some (MlGestureLabel.pinch, 1)⟩ (1/10, 1/10, 8/10) 4).stableLabel =
      MlGestureLabel.neutral ∧
      (updateStableLabel ⟨1/2, 2/5, 1, 16/5⟩ ⟨MlGestureLabel.neutral,
        some (MlGestureLabel.pinch, 1)⟩ (1/10, 1/10, 8/10) 4).pendingSwitch = none) ∧
    (1 : ℕ) ≤ 3 - 1 := by
  have hgate := stabilizer_gate_and_debounce.1 ⟨1/2, 2/5, 1, 16/5⟩
    ⟨MlGestureLabel.neutral, some (MlGestureLabel.pinch, 1)⟩ (1/10, 1/10, 8/10) 4
    (by norm_num)
  have h_i : labelChangedAt ⟨1/2, 2/5, 1, 16/5⟩ ⟨MlGestureLabel.neutral, none⟩
      (fun n => if n ≤ 1 then ((1/10, 1/10, 8/10), 0) else ((1/20, 9/10, 1/20), 0)) 1 := by
    norm_num [labelChangedAt, stabAt, updateStableLabel, score, argMax3,
      neutral_ne_open_palm, neutral_ne_pinch, open_palm_ne_neutral, open_palm_ne_pinch,
      pinch_ne_neutral, pinch_ne_open_palm]
  have h_j : labelChangedAt ⟨1/2, 2/5, 1, 16/5⟩ ⟨MlGestureLabel.neutral, none⟩
      (fun n => if n ≤ 1 then ((1/10, 1/10, 8/10), 0) else ((1/20, 9/10, 1/20), 0)) 3 := by
    norm_num [labelChangedAt, stabAt, updateStableLabel, score, argMax3,
      neutral_ne_open_palm, neutral_ne_pinch, open_palm_ne_neutral, open_palm_ne_pinch,
      pinch_ne_neutral, pinch_ne_open_palm]
  have hnn : (stabAt ⟨1/2, 2/5, 1, 16/5⟩ ⟨MlGestureLabel.neutral, none⟩
      (fun n => if n ≤ 1 then ((1/10, 1/10, 8/10), 0) else ((1/20, 9/10, 1/20), 0))
      4).stableLabel ≠ MlGestureLabel.neutral := by
    norm_num [stabAt, updateStableLabel, score, argMax3,
      neutral_ne_open_palm, neutral_ne_pinch, open_palm_ne_neutral, open_palm_ne_pinch,
      pinch_ne_neutral, pinch_ne_open_palm]
  exact ⟨hgate, stabilizer_gate_and_debounce.2 ⟨1/2, 2/5, 1, 16/5⟩
    ⟨MlGestureLabel.neutral, none⟩
    (fun n => if n ≤ 1 then ((1/10, 1/10, 8/10), 0) else ((1/20, 9/10, 1/20), 0))
    1 3 rfl (by norm_num) h_i h_j hnn⟩

/-- Counterexample for C4 as stated: with switchFrames = 3 (and the
default thresholds), a run exists in which the stable label changes on
frame 2 (debounced switch to pinch) and again on frame 4 (hysteresis
demotion to neutral) — two changes within one window of 3 consecutive
frames, with hand velocity 0 throughout. -/
theorem stabilizer_debounce_counterexample :
    labelChangedAt ⟨1/2, 2/5, 3, 16/5⟩ ⟨MlGestureLabel.neutral, none⟩
      (fun n => if n ≤ 2 then ((1/10, 1/10, 8/10), 0)
        else if n = 3 then ((239/500, 29/500, 58/125), 0)
        else ((7/10, 1/30, 27/100), 0)) 2 ∧
    labelChangedAt ⟨1/2, 2/5, 3, 16/5⟩ ⟨MlGestureLabel.neutral, none⟩
      (fun n => if n ≤ 2 then ((1/10, 1/10, 8/10), 0)
        else if n = 3 then ((239/500, 29/500, 58/125), 0)
        else ((7/10, 1/30, 27/100), 0)) 4 ∧
    4 - 2 < 3 := by
  refine ⟨?_, ?_, by norm_num⟩ <;>
    norm_num [labelChangedAt, stabAt, updateStableLabel, score, argMax3,
      neutral_ne_open_palm, neutral_ne_pinch, open_palm_ne_neutral, open_palm_ne_pinch,
      pinch_ne_neutral, pinch_ne_open_palm]

/-! ## C5: feature vector dimension and clamp range -/

theorem palmCenterQ_isSome {l : List Landmark} (h : 21 ≤ l.length) :
    ∃ c, palmCenterQ l = some c := by
  obtain ⟨w, hw⟩ : ∃ a, l.get? 0 = some a := ⟨l.get ⟨0, by omega⟩, List.get?_eq_get (by omega)⟩
  obtain ⟨i5, h5⟩ : ∃ a, l.get? 5 = some a := ⟨l.get ⟨5, by omega⟩, List.get?_eq_get (by omega)⟩
  obtain ⟨m9, h9⟩ : ∃ a, l.get? 9 = some a := ⟨l.get ⟨9, by omega⟩, List.get?_eq_get (by omega)⟩
  obtain ⟨p17, h17⟩ : ∃ a, l.get? 17 = some a :=
    ⟨l.get ⟨17, by omega⟩, List.get?_eq_get (by omega)⟩
  rw [List.get?_eq_getElem?] at hw h5 h9 h17
  exact ⟨((w.x + i5.x + m9.x + p17.x) / 4, (w.y + i5.y + m9.y + p17.y) / 4), by
    simp [palmCenterQ, hw, h5, h9, h17]⟩

theorem frameHandVelocity_isSome (sqrtQ : ℚ → ℚ) {lms : List Landmark}
    {prev : Option (List Landmark)} (hl : 21 ≤ lms.length)
    (hp : ∀ pl, prev = some pl → 21 ≤ pl.length) (handScale dtSec : ℚ) :
    ∃ hv, frameHandVelocity sqrtQ lms prev handScale dtSec = some hv := by
  rcases prev with _ | pl
  · exact ⟨0, rfl⟩
  · obtain ⟨cn, hcn⟩ := palmCenterQ_isSome hl
    obtain ⟨cp, hcp⟩ := palmCenterQ_isSome (hp pl rfl)
    exact ⟨safeRatio (hypotQ sqrtQ (cn.1 - cp.1) (cn.2 - cp.2))
        (maxQ (1 / 1000) (handScale * dtSec)) 0,
      by simp only [frameHandVelocity, hcn, hcp]⟩

/-- C5: for every landmark list that is a full 21-point hand, every
previous-landmark list (a full hand or null) and every elapsed time,
`extractFrameFeatures` returns a feature vector of exactly
FEATURE_DIM = 32 components, each lying in the clamp range `[-5, 5]`
(finiteness is inherent to the rational model: every component is a
rational number). -/
theorem extractFrameFeatures_dim_and_range (sqrtQ : ℚ → ℚ) (landmarks : List Landmark)
    (previousLandmarks : Option (List Landmark)) (dtMs : ℚ)
    (hl : 21 ≤ landmarks.length)
    (hp : ∀ pl, previousLandmarks = some pl → 21 ≤ pl.length) :
    ∃ frame, extractFrameFeatures sqrtQ landmarks previousLandmarks dtMs = some frame ∧
      frame.vector.length = FEATURE_DIM ∧
      ∀ v ∈ frame.vector, -5 ≤ v ∧ v ≤ 5 := by
  obtain ⟨hv, hhv⟩ := frameHandVelocity_isSome sqrtQ hl hp
    (computeHandScale sqrtQ landmarks) (maxQ (1 / 120) (dtMs / 1000))
  obtain ⟨l0, h0⟩ : ∃ a, landmarks.get? 0 = some a :=
    ⟨landmarks.get ⟨0, by omega⟩, List.get?_eq_get (by omega)⟩
  obtain ⟨l1, h1⟩ : ∃ a, landmarks.get? 1 = some a :=
    ⟨landmarks.get ⟨1, by omega⟩, List.get?_eq_get (by omega)⟩
  obtain ⟨l3, h3⟩ : ∃ a, landmarks.get? 3 = some a :=
    ⟨landmarks.get ⟨3, by omega⟩, List.get?_eq_get (by omega)⟩
  obtain ⟨l4, h4⟩ : ∃ a, landmarks.get? 4 = some a :=
    ⟨landmarks.get ⟨4, by omega⟩, List.get?_eq_get (by omega)⟩
  obtain ⟨l5, h5⟩ : ∃ a, landmarks.get? 5 = some a :=
    ⟨landmarks.get ⟨5, by omega⟩, List.get?_eq_get (by omega)⟩
  obtain ⟨l6, h6⟩ : ∃ a, landmarks.get? 6 = some a :=
    ⟨landmarks.get ⟨6, by omega⟩, List.get?_eq_get (by omega)⟩
  obtain ⟨l8, h8⟩ : ∃ a, landmarks.get? 8 = some a :=
    ⟨landmarks.get ⟨8, by omega⟩, List.get?_eq_get (by omega)⟩
  obtain ⟨l9, h9⟩ : ∃ a, landmarks.get? 9 = some a :=
    ⟨landmarks.get ⟨9, by omega⟩, List.get?_eq_get (by omega)⟩
  obtain ⟨l10, h10⟩ : ∃ a, landmarks.get? 10 = some a :=
    ⟨landmarks.get ⟨10, by omega⟩, List.get?_eq_get (by omega)⟩
  obtain ⟨l12, h12⟩ : ∃ a, landmarks.get? 12 = some a :=
    ⟨landmarks.get ⟨12, by omega⟩, List.get?_eq_get (by omega)⟩
  obtain ⟨l13, h13⟩ : ∃ a, landmarks.get? 13 = some a :=
    ⟨landmarks.get ⟨13, by omega⟩, List.get?_eq_get (by omega)⟩
  obtain ⟨l14, h14⟩ : ∃ a, landmarks.get? 14 = some a :=
    ⟨landmarks.get ⟨14, by omega⟩, List.get?_eq_get (by omega)⟩
  obtain ⟨l16, h16⟩ : ∃ a, landmarks.get? 16 = some a :=
    ⟨landmarks.get ⟨16, by omega⟩, List.get?_eq_get (by omega)⟩
  obtain ⟨l17, h17⟩ : ∃ a, landmarks.get? 17 = some a :=
    ⟨landmarks.get ⟨17, by omega⟩, List.get?_eq_get (by omega)⟩
  obtain ⟨l18, h18⟩ : ∃ a, landmarks.get? 18 = some a :=
    ⟨landmarks.get ⟨18, by omega⟩, List.get?_eq_get (by omega)⟩
  obtain ⟨l20, h20⟩ : ∃ a, landmarks.get? 20 = some a :=
    ⟨landmarks.get ⟨20, by omega⟩, List.get?_eq_get (by omega)⟩
  have hsome : (extractFrameFeatures sqrtQ landmarks previousLandmarks dtMs).isSome = true := by
    simp only [extractFrameFeatures, h0, h1, h3, h4, h5, h6, h8, h9, h10, h12, h13, h14,
      h16, h17, h18, h20, hhv, Option.isSome_some]
  obtain ⟨frame, hframe⟩ := Option.isSome_iff_exists.mp hsome
  have hframe2 := hframe
  simp only [extractFrameFeatures, h0, h1, h3, h4, h5, h6, h8, h9, h10, h12, h13, h14,
    h16, h17, h18, h20, hhv, Option.some.injEq] at hframe2
  subst hframe2
  refine ⟨_, hframe, ?_, ?_⟩
  · simp [rawFeatureComponents, FEATURE_DIM]
  · intro v hvmem
    simp only [List.mem_map] at hvmem
    obtain ⟨u, _, rfl⟩ := hvmem
    exact ⟨lo_le_clampQ u (by norm_num), clampQ_le_hi u _ _⟩

/-- Witness for C5 at a concrete 21-point hand (all landmarks at the
origin), no previous frame, dtMs = 33. -/
theorem extractFrameFeatures_dim_and_range_witness :
    21 ≤ (List.replicate 21 (⟨0, 0, 0⟩ : Landmark)).length ∧
      (∃ frame, extractFrameFeatures (fun _ => 0) (List.replicate 21 ⟨0, 0, 0⟩) none 33 =
          some frame ∧ frame.vector.length = FEATURE_DIM ∧
          ∀ v ∈ frame.vector, -5 ≤ v ∧ v ≤ 5) := by
  have hl : 21 ≤ (List.replicate 21 (⟨0, 0, 0⟩ : Landmark)).length := by simp
  exact ⟨hl, extractFrameFeatures_dim_and_range (fun _ => 0) (List.replicate 21 ⟨0, 0, 0⟩)
    none 33 hl (fun pl h => Option.noConfusion h)⟩

/-! ## C7: open-palm scroll dispatch direction and magnitude -/

/-- C7: on every open-palm frame on which the detector is armed, the
palm-center y displacement exceeds the delta threshold, and the scroll
cooldown has elapsed, the dispatched vertical scroll delta equals the
negated palm-center y change scaled by SCROLL_GAIN and clamped to
`[-46, 46]`; palm-center y decreasing yields a positive delta and
palm-center y increasing yields a negative delta. -/
theorem openPalmScroll_dispatch (s : ScrollState) (wrist middleMcp : Landmark) (now : ℚ)
    (prevY prevX : ℚ) (hY : s.prevPalmY = some prevY) (hX : s.prevPalmX = some prevX)
    (harm : SCROLL_ARM_FRAMES ≤ s.armFrames + 1)
    (hdelta : |(wrist.y + middleMcp.y) / 2 - prevY| > SCROLL_PALM_DELTA_THRESHOLD)
    (hcool : now - s.lastScrollTime > SCROLL_COOLDOWN_MS) :
    (openPalmScrollFrame s wrist middleMcp now).2 =
      some (clampQ (((wrist.x + middleMcp.x) / 2 - prevX) * SCROLL_GAIN) (-46) 46,
            clampQ (-((wrist.y + middleMcp.y) / 2 - prevY) * SCROLL_GAIN) (-46) 46) ∧
      ((wrist.y + middleMcp.y) / 2 - prevY < 0 →
        0 < clampQ (-((wrist.y + middleMcp.y) / 2 - prevY) * SCROLL_GAIN) (-46) 46) ∧
      (0 < (wrist.y + middleMcp.y) / 2 - prevY →
        clampQ (-((wrist.y + middleMcp.y) / 2 - prevY) * SCROLL_GAIN) (-46) 46 < 0) := by
  refine ⟨?_, ?_, ?_⟩
  · unfold openPalmScrollFrame
    rw [hY, hX]
    dsimp only
    rw [if_pos harm, if_pos ⟨Or.inl hdelta, hcool⟩]
  · intro hneg
    exact clampQ_pos (by norm_num)
      (mul_pos (by linarith) (by norm_num [SCROLL_GAIN]))
  · intro hpos
    exact clampQ_neg (by norm_num)
      (mul_neg_of_neg_of_pos (by linarith) (by norm_num [SCROLL_GAIN]))

/-- Witness for C7: armed detector, palm center moving from y = 0.5 to
y = 0.48 (delta -0.02), cooldown elapsed: a dispatch with positive
vertical delta clamp(0.02 * 760) = 15.2. -/
theorem openPalmScroll_dispatch_witness :
    (openPalmScrollFrame ⟨3, some 0.5, some 0.5, 0⟩ ⟨0.5, 0.48, 0⟩ ⟨0.5, 0.48, 0⟩ 100).2 =
      some (clampQ (((0.5 + 0.5) / 2 - 0.5) * SCROLL_GAIN) (-46) 46,
            clampQ (-((0.48 + 0.48) / 2 - 0.5) * SCROLL_GAIN) (-46) 46) ∧
      0 < clampQ (-((0.48 + 0.48) / 2 - 0.5) * SCROLL_GAIN) (-46) 46 := by
  have h := openPalmScroll_dispatch ⟨3, some 0.5, some 0.5, 0⟩ ⟨0.5, 0.48, 0⟩ ⟨0.5, 0.48, 0⟩
    100 0.5 0.5 rfl rfl (by norm_num [SCROLL_ARM_FRAMES])
    (by rw [show ((0.48 : ℚ) + 0.48) / 2 - 0.5 = -0.02 by norm_num,
          abs_of_nonpos (by norm_num)]
        norm_num [SCROLL_PALM_DELTA_THRESHOLD])
    (by norm_num [SCROLL_COOLDOWN_MS])
  exact ⟨h.1, h.2.1 (by norm_num)⟩

/-! ## C8: classifier invocation and the padded sequence (corrected) -/

theorem padSequenceToLength_some_length (sequence : List (List ℚ)) (targetLength : ℕ)
    (h : sequence ≠ []) :
    ∃ s, padSequenceToLength sequence targetLength = some s ∧ s.length = targetLength := by
  have hlen : sequence.length ≠ 0 := by
    simpa [List.length_eq_zero] using h
  unfold padSequenceToLength
  rw [if_neg hlen]
  split_ifs with h1 h2
  · exact ⟨sequence, rfl, h1⟩
  · exact ⟨_, rfl, by rw [List.length_drop]; omega⟩
  · refine ⟨_, rfl, ?_⟩
    rw [List.length_append, List.length_replicate]
    omega

/-- C8 (amended): the external classifier is invoked only on frames with
a NON-EMPTY temporal buffer; on frames where the buffer is empty no
classification occurs, and whenever the classifier is invoked the
sequence it receives has exactly ML_SEQUENCE_LENGTH = 30 vectors —
shorter buffers are front-padded with copies of their first vector by
padSequenceToLength rather than skipped. -/
theorem classifier_invoked_iff_nonempty_buffer :
    (∀ (mlInferenceEnabled modelLoaded : Bool) (modelFeatureDim : Option ℕ)
        (frameCounter inferEveryNFrames : ℕ),
      frameInvokesClassifier mlInferenceEnabled modelLoaded [] modelFeatureDim frameCounter
        inferEveryNFrames = false) ∧
    (∀ (buffer : List (List ℚ)) (mlInferenceEnabled modelLoaded : Bool)
        (modelFeatureDim : Option ℕ) (frameCounter inferEveryNFrames : ℕ),
      frameInvokesClassifier mlInferenceEnabled modelLoaded buffer modelFeatureDim
          frameCounter inferEveryNFrames = true →
        buffer ≠ [] ∧
        ∃ s, padSequenceToLength buffer ML_SEQUENCE_LENGTH = some s ∧
          s.length = ML_SEQUENCE_LENGTH) := by
  constructor
  · intro mlE mL mfd fc n
    cases mlE <;> simp [frameInvokesClassifier, padSequenceToLength]
  · intro buffer mlE mL mfd fc n h
    have hne : buffer ≠ [] := by
      intro hb
      subst hb
      cases mlE <;> simp [frameInvokesClassifier, padSequenceToLength] at h
    exact ⟨hne, padSequenceToLength_some_length buffer ML_SEQUENCE_LENGTH hne⟩

/-- Witness for C8 (amended): a one-vector buffer is padded to a
30-vector sequence. -/
theorem classifier_invoked_iff_nonempty_buffer_witness :
    frameInvokesClassifier true true [] none 1 2 = false ∧
      ([[ (0 : ℚ) ]] ≠ ([] : List (List ℚ)) ∧
        ∃ s, padSequenceToLength [[(0 : ℚ)]] ML_SEQUENCE_LENGTH = some s ∧
          s.length = ML_SEQUENCE_LENGTH) := by
  have hinv : frameInvokesClassifier true true [[(0 : ℚ)]] none 1 2 = true := by
    decide
  exact ⟨classifier_invoked_iff_nonempty_buffer.1 true true none 1 2,
    classifier_invoked_iff_nonempty_buffer.2 [[(0 : ℚ)]] true true none 1 2 hinv⟩

/-- Counterexample for C8 as stated: on a frame where the buffer holds a
single feature vector (fewer than N = 30), the classifier is still
invoked — the call site pads the sequence to length 30 and `predict`
reaches the model (model loaded, feature width accepted, frame counter
hitting the every-2nd-frame cadence). -/
theorem classifier_invoked_on_partial_buffer :
    ([[(0 : ℚ)]] : List (List ℚ)).length = 1 ∧ 1 < ML_SEQUENCE_LENGTH ∧
      frameInvokesClassifier true true [[(0 : ℚ)]] none 1 2 = true := by
  exact ⟨rfl, by norm_num [ML_SEQUENCE_LENGTH], by decide⟩

/-! ## C9: no-hand reset window -/

theorem noHandRun_noHandFrames (s : GestureSessionState) (k : ℕ) :
    (noHandRun s k).noHandFrames = s.noHandFrames + k := by
  induction k with
  | zero => rfl
  | succ m ih =>
      show (noHandRun s m).noHandFrames + 1 = s.noHandFrames + (m + 1)
      omega

theorem noHandRun_cursor (s : GestureSessionState) (k : ℕ) :
    (noHandRun s k).cursor = s.cursor := by
  induction k with
  | zero => rfl
  | succ m ih => exact ih

/-- C9: after at least NO_HAND_RESET_FRAMES = 8 consecutive no-hand
frames, the temporal feature buffer is empty, the previous-landmark
cache is cleared, and the per-gesture transient state (click state,
pinch candidate timer, stable-pinch frame counter, scroll arming
counter, two-hand zoom state) is at its initial values, while the
filtered cursor position is unchanged from its last value. -/
theorem noHand_reset_window (s : GestureSessionState) (k : ℕ)
    (h : NO_HAND_RESET_FRAMES ≤ k) :
    (noHandRun s k).featureBuffer.values = [] ∧
      (noHandRun s k).lastLandmarks = none ∧
      (noHandRun s k).clickState = IDLE ∧
      (noHandRun s k).pinchStartCandidateAt = none ∧
      (noHandRun s k).stablePinchFrames = 0 ∧
      (noHandRun s k).scrollArmFrames = 0 ∧
      (noHandRun s k).twoHandPreviousDistance = none ∧
      (noHandRun s k).twoHandSmoothedDelta = 0 ∧
      (noHandRun s k).twoHandActive = false ∧
      (noHandRun s k).twoHandIdleFrames = 0 ∧
      (noHandRun s k).twoHandPrevCenterA = none ∧
      (noHandRun s k).twoHandPrevCenterB = none ∧
      (noHandRun s k).cursor = s.cursor := by
  obtain ⟨m, rfl⟩ : ∃ m, k = m + 1 :=
    ⟨k - 1, by norm_num [NO_HAND_RESET_FRAMES] at h; omega⟩
  have hn : (noHandRun s m).noHandFrames + 1 ≥ NO_HAND_RESET_FRAMES := by
    rw [noHandRun_noHandFrames]
    norm_num [NO_HAND_RESET_FRAMES] at h ⊢
    omega
  simp [noHandRun, noHandFrame, if_pos hn, RingBuffer.clear, noHandRun_cursor]

/-- Witness for C9: a fully dirty session state is reset after 8
consecutive no-hand frames while the cursor stays at (100, 200). -/
theorem noHand_reset_window_witness :
    NO_HAND_RESET_FRAMES ≤ 8 ∧
      (noHandRun ⟨3, CLICKED, some 5, 2, 7, some 1, 4, true, 2, some ⟨1, 2, 3⟩,
          some ⟨4, 5, 6⟩, ⟨30, [[1], [2]]⟩, some [⟨0, 0, 0⟩], (100, 200)⟩ 8).featureBuffer.values
        = [] ∧
      (noHandRun ⟨3, CLICKED, some 5, 2, 7, some 1, 4, true, 2, some ⟨1, 2, 3⟩,
          some ⟨4, 5, 6⟩, ⟨30, [[1], [2]]⟩, some [⟨0, 0, 0⟩], (100, 200)⟩ 8).cursor =
        (100, 200) := by
  have h8 : NO_HAND_RESET_FRAMES ≤ 8 := by norm_num [NO_HAND_RESET_FRAMES]
  have hmain := noHand_reset_window ⟨3, CLICKED, some 5, 2, 7, some 1, 4, true, 2,
    some ⟨1, 2, 3⟩, some ⟨4, 5, 6⟩, ⟨30, [[1], [2]]⟩, some [⟨0, 0, 0⟩], (100, 200)⟩ 8 h8
  exact ⟨h8, hmain.1, hmain.2.2.2.2.2.2.2.2.2.2.2.2⟩

/-! ## C10: missing-landmark default of the normalized pinch -/

/-- C10: for every landmark list in which the thumb-tip (index 4) or the
index-tip (index 8) landmark is missing, `computeNormalizedPinch`
returns 0 instead of raising. -/
theorem computeNormalizedPinch_missing_default (sqrtQ : ℚ → ℚ) (landmarks : List Landmark)
    (h : landmarks.get? 4 = none ∨ landmarks.get? 8 = none) :
    computeNormalizedPinch sqrtQ landmarks = 0 := by
  unfold computeNormalizedPinch
  rcases h with h | h
  · rw [h]
  · cases h4 : landmarks.get? 4 with
    | none => rfl
    | some t => rw [h]

/-- Witness for C10 at the empty landmark list: index 4 is missing and
the normalized pinch defaults to 0. -/
theorem computeNormalizedPinch_missing_default_witness :
    (List.get? ([] : List Landmark) 4 = none ∨ List.get? ([] : List Landmark) 8 = none) ∧
      computeNormalizedPinch (fun _ => 0) [] = 0 :=
  ⟨Or.inl rfl, computeNormalizedPinch_missing_default (fun _ => 0) [] (Or.inl rfl)⟩

end MotionTrack
